import Mathlib

/-! Shallow embedding of the trash-bin item lifecycle engine of rubbish.py
(classes TrashBin and TrashedPath), with theorems settling the specification's
claims about it.  Filesystem effects are made explicit: a bin is the list of
entry names under files/ and of file names under info/, and fallible system
calls (unlink, move, write) are given explicit success oracles. -/

/- ------------------------------------------------------------------
Name-collision resolution (TrashBin.item_exists, TrashedPath._rename_if_necessary)
------------------------------------------------------------------ -/

/-- Names present in a trash bin: the entries of the files/ directory and the
file names of the info/ directory.  This is the state consulted by
TrashBin.item_exists. -/
structure BinNames where
  files : List String
  infos : List String
  deriving DecidableEq

/-- Translation of TrashBin.item_exists: true if files/filename exists or
info/filename.trashinfo exists. -/
def itemExists (b : BinNames) (filename : String) : Bool :=
  b.files.contains filename || b.infos.contains (filename ++ ".trashinfo")

/-- Suffixed candidate name as built by TrashedPath._rename_if_necessary:
the original name, an underscore, and the decimal suffix counter. -/
def suffName (base : String) (k : Nat) : String :=
  base ++ "_" ++ toString k

inductive RenameErr where
  | tooManyCollisions
  deriving DecidableEq

/-- The while loop of TrashedPath._rename_if_necessary.  The loop tests the
name with suffix counter s; if it exists it increments the counter, raising
once the counter reaches 100 (so suffixes 1 through 99 get tried).  The
remaining number of increments is the structural fuel. -/
def renameLoop (ex : String → Bool) (base : String) : Nat → Nat → Except RenameErr String
  | s, 0 =>
    if ex (suffName base s) then Except.error RenameErr.tooManyCollisions
    else Except.ok (suffName base s)
  | s, fuel + 1 =>
    if ex (suffName base s) then renameLoop ex base (s + 1) fuel
    else Except.ok (suffName base s)

/-- Translation of TrashedPath._rename_if_necessary, as a function from the
existence predicate (TrashBin.item_exists) and the candidate base name to the
resolved name.  The loop starts at suffix 1 and may increment 98 times before
the counter hits 100 and the exception is raised. -/
def renameIfNecessary (ex : String → Bool) (base : String) : Except RenameErr String :=
  if ex base then renameLoop ex base 1 98
  else Except.ok base

lemma renameLoop_ok_of_first_free (ex : String → Bool) (base : String) :
    ∀ fuel s k, s ≤ k → k ≤ s + fuel →
      (∀ j, s ≤ j → j < k → ex (suffName base j) = true) →
      ex (suffName base k) = false →
      renameLoop ex base s fuel = Except.ok (suffName base k) := by
  intro fuel
  induction fuel with
  | zero =>
    intro s k h1 h2 hall hk
    have hsk : s = k := Nat.le_antisymm h1 (by omega)
    subst hsk
    simp [renameLoop, hk]
  | succ f ih =>
    intro s k h1 h2 hall hk
    by_cases hsk : s = k
    · subst hsk
      simp [renameLoop, hk]
    · have hlt : s < k := Nat.lt_of_le_of_ne h1 hsk
      have hs : ex (suffName base s) = true := hall s (Nat.le_refl s) hlt
      simp only [renameLoop, hs, if_true]
      exact ih (s + 1) k hlt (by omega) (fun j hj hjk => hall j (by omega) hjk) hk

lemma renameLoop_error_of_all (ex : String → Bool) (base : String) :
    ∀ fuel s, (∀ j, s ≤ j → j ≤ s + fuel → ex (suffName base j) = true) →
      renameLoop ex base s fuel = Except.error RenameErr.tooManyCollisions := by
  intro fuel
  induction fuel with
  | zero =>
    intro s hall
    simp [renameLoop, hall s (Nat.le_refl s) (by omega)]
  | succ f ih =>
    intro s hall
    have hs : ex (suffName base s) = true := hall s (Nat.le_refl s) (by omega)
    simp only [renameLoop, hs, if_true]
    exact ih (s + 1) (fun j h1 h2 => hall j (by omega) (by omega))

/-- C5: for every bin state and candidate base name, name resolution returns
the base unchanged when neither files/base nor info/base.trashinfo exists;
otherwise it returns the base with a single numeric suffix appended to the
original base (never compounded), choosing the first suffixed name, within the
loop's budget of suffixes 1..99, for which neither half exists. -/
theorem c5_rename_resolution (b : BinNames) (base : String) :
    (itemExists b base = false →
      renameIfNecessary (itemExists b) base = Except.ok base)
    ∧ (∀ k, k < 100 → 1 ≤ k → itemExists b base = true →
        (∀ j, j < k → 1 ≤ j → itemExists b (suffName base j) = true) →
        itemExists b (suffName base k) = false →
        renameIfNecessary (itemExists b) base = Except.ok (suffName base k)) := by
  constructor
  · intro h
    simp [renameIfNecessary, h]
  · intro k hk100 hk1 hbase hall hfree
    simp only [renameIfNecessary, hbase, if_true]
    exact renameLoop_ok_of_first_free (itemExists b) base 98 1 k hk1 (by omega)
      (fun j hj hjk => hall j hjk hj) hfree

/-- Witness for C5: with foo and foo_1 occupied a new foo resolves to foo_2,
and a new bar with no bar entries resolves to bar unchanged. -/
theorem c5_witness :
    renameIfNecessary (itemExists ⟨["foo", "foo_1"], []⟩) "foo" = Except.ok (suffName "foo" 2)
    ∧ renameIfNecessary (itemExists ⟨["foo", "foo_1"], []⟩) "bar" = Except.ok "bar" :=
  ⟨(c5_rename_resolution ⟨["foo", "foo_1"], []⟩ "foo").2 2 (by decide) (by decide) (by decide)
      (by decide) (by decide),
   (c5_rename_resolution ⟨["foo", "foo_1"], []⟩ "bar").1 (by decide)⟩

/-- C6: name resolution is bounded: whenever the base and all 99 suffixed
candidates are occupied, it aborts with the collision-exhaustion error instead
of looping. -/
theorem c6_rename_bound (b : BinNames) (x : String)
    (hx : itemExists b x = true)
    (hall : ∀ k, k < 100 → 1 ≤ k → itemExists b (suffName x k) = true) :
    renameIfNecessary (itemExists b) x = Except.error RenameErr.tooManyCollisions := by
  simp only [renameIfNecessary, hx, if_true]
  exact renameLoop_error_of_all (itemExists b) x 98 1 (fun j h1 h2 => hall j (by omega) h1)

/-- A bin pre-populated with x, x_1, ..., x_99. -/
def binFullOfX : BinNames :=
  ⟨"x" :: (List.range 99).map (fun i => suffName "x" (i + 1)), []⟩

/-- Witness for C6: resolving a new x against the bin holding x, x_1..x_99
fails with the collision-exhaustion error. -/
theorem c6_witness :
    renameIfNecessary (itemExists binFullOfX) "x" = Except.error RenameErr.tooManyCollisions :=
  c6_rename_bound binFullOfX "x" (by decide) (by decide)

/- ------------------------------------------------------------------
Purge of a single item (TrashedPath.delete)
------------------------------------------------------------------ -/

/-- Presence on disk of the two halves of one trashed item. -/
structure ItemFiles where
  contentPresent : Bool
  infoPresent : Bool
  deriving DecidableEq

/-- Translation of TrashedPath.delete: try to unlink the trashed content (a
failure is caught and only logged), then unconditionally try to unlink the
.trashinfo file (a failure is likewise caught and only logged).  Each oracle
argument tells whether the corresponding unlink call succeeds. -/
def deleteOp (st : ItemFiles) (contentUnlinkOk infoUnlinkOk : Bool) : ItemFiles :=
  let st1 : ItemFiles := if contentUnlinkOk then ⟨false, st.infoPresent⟩ else st
  if infoUnlinkOk then ⟨st1.contentPresent, false⟩ else st1

/-- C3, evaluated at the failing input: when the content unlink fails (for
example because trashed_path is a directory, which Path.unlink always refuses),
TrashedPath.delete still removes the .trashinfo file, leaving content without
metadata — the opposite of what the claim (and the comment inside
TrashedPath.delete itself) states. -/
theorem c3_delete_eval :
    deleteOp ⟨true, true⟩ false true = ⟨true, false⟩ := rfl

/- ------------------------------------------------------------------
Enumeration and orphan classification (TrashBin._read_info_files,
TrashedPath.__init__, TrashedPath._read_trashinfo_file)
------------------------------------------------------------------ -/

/-- View of one .trashinfo file as the enumeration sees it: its stem, whether
its record parses, and whether the paired content file files/stem exists. -/
structure InfoMeta where
  stem : String
  parses : Bool
  contentExists : Bool
  deriving DecidableEq

inductive TrashinfoReadErr where
  | invalid
  | orphan
  deriving DecidableEq

/-- Translation of TrashedPath._read_trashinfo_file: a parse failure raises;
otherwise, only when check_orphan is set, a missing paired content file raises
OrphanTrashinfoFile. -/
def readTrashinfoFile (checkOrphan : Bool) (f : InfoMeta) : Except TrashinfoReadErr Unit :=
  if f.parses = false then Except.error TrashinfoReadErr.invalid
  else if checkOrphan = true && f.contentExists = false then Except.error TrashinfoReadErr.orphan
  else Except.ok ()

inductive PyExc where
  | orphanTrashinfoFile
  | genericException
  deriving DecidableEq

/-- Translation of TrashedPath.__init__ when given an info file: it calls
_read_trashinfo_file() with check_orphan left at its default False, and
re-raises any failure as a plain Exception (losing the original type). -/
def trashedPathInit (f : InfoMeta) : Except PyExc Unit :=
  match readTrashinfoFile false f with
  | Except.ok _ => Except.ok ()
  | Except.error _ => Except.error PyExc.genericException

inductive ItemClass where
  | included
  | orphanSkipped
  | corruptSkipped
  deriving DecidableEq

/-- Translation of the except chain in TrashBin._read_info_files: an
OrphanTrashinfoFile escaping construction would classify the file as orphaned,
any other exception classifies it as unreadable, and otherwise the item is
appended to the bin's item list. -/
def classifyInfoFile (f : InfoMeta) : ItemClass :=
  match trashedPathInit f with
  | Except.ok _ => ItemClass.included
  | Except.error PyExc.orphanTrashinfoFile => ItemClass.orphanSkipped
  | Except.error PyExc.genericException => ItemClass.corruptSkipped

/-- Translation of TrashBin._read_info_files: the items that end up in the
bin's item list. -/
def readInfoFiles (fs : List InfoMeta) : List InfoMeta :=
  fs.filter (fun f => classifyInfoFile f == ItemClass.included)

/-- C2, evaluated at the failing input: a .trashinfo file that parses fine but
whose paired content file is absent is classified as included and kept in the
item list, because __init__ never passes check_orphan=True; the third conjunct
shows the same file would raise the orphan error had check_orphan been set. -/
theorem c2_orphan_included_eval :
    classifyInfoFile ⟨"foo", true, false⟩ = ItemClass.included
    ∧ readInfoFiles [⟨"foo", true, false⟩] = [⟨"foo", true, false⟩]
    ∧ readTrashinfoFile true ⟨"foo", true, false⟩ = Except.error TrashinfoReadErr.orphan :=
  ⟨rfl, rfl, rfl⟩

/- ------------------------------------------------------------------
Trashing (TrashedPath.trash, TrashedPath._write_trashinfo_file)
------------------------------------------------------------------ -/

inductive TrashOutcome where
  | renameFailed
  | infoFileExistsErr
  | writeFailedErr
  | moveFailedErr
  | trashed
  deriving DecidableEq

/-- State over which TrashedPath.trash acts: whether the original path is
still in place, plus the bin's names. -/
structure TrashState where
  originalPresent : Bool
  bin : BinNames
  deriving DecidableEq

/-- Translation of TrashedPath.trash for an original path whose final segment
is name: resolve a collision-free name, then write the .trashinfo file
(_write_trashinfo_file raises if that file already exists, and re-raises a
write failure, modelled by the writeOk oracle), and only then move the content
into the bin (shutil.move, modelled by the moveOk oracle; on failure trash
returns False and the already-written info file stays). -/
def trashOp (bin : BinNames) (name : String) (writeOk moveOk : Bool) :
    TrashState × TrashOutcome :=
  match renameIfNecessary (itemExists bin) name with
  | Except.error _ => (⟨true, bin⟩, TrashOutcome.renameFailed)
  | Except.ok resolved =>
    if (resolved ++ ".trashinfo") ∈ bin.infos then
      (⟨true, bin⟩, TrashOutcome.infoFileExistsErr)
    else if writeOk = false then
      (⟨true, bin⟩, TrashOutcome.writeFailedErr)
    else
      if moveOk = false then
        (⟨true, ⟨bin.files, (resolved ++ ".trashinfo") :: bin.infos⟩⟩, TrashOutcome.moveFailedErr)
      else
        (⟨false, ⟨resolved :: bin.files, (resolved ++ ".trashinfo") :: bin.infos⟩⟩,
          TrashOutcome.trashed)

/-- C4: the metadata file for the resolved name is written before the content
move is attempted: if the metadata write fails (file already present, or the
write itself fails), the operation fails with the original path undisturbed and
the bin's content entries untouched; if the subsequent content move fails, the
operation reports failure and the already-written metadata file is left in
place. -/
theorem c4_trash_metadata_first (bin : BinNames) (name resolved : String)
    (writeOk moveOk : Bool)
    (hres : renameIfNecessary (itemExists bin) name = Except.ok resolved) :
    ((resolved ++ ".trashinfo") ∈ bin.infos →
      trashOp bin name writeOk moveOk = (⟨true, bin⟩, TrashOutcome.infoFileExistsErr))
    ∧ ((resolved ++ ".trashinfo") ∉ bin.infos → writeOk = false →
      trashOp bin name writeOk moveOk = (⟨true, bin⟩, TrashOutcome.writeFailedErr))
    ∧ ((resolved ++ ".trashinfo") ∉ bin.infos → writeOk = true →
        moveOk = false →
      trashOp bin name writeOk moveOk =
        (⟨true, ⟨bin.files, (resolved ++ ".trashinfo") :: bin.infos⟩⟩,
          TrashOutcome.moveFailedErr)) := by
  refine ⟨fun hin => ?_, fun hin hw => ?_, fun hin hw hm => ?_⟩
  · simp [trashOp, hres, hin]
  · simp [trashOp, hres, hin, hw]
  · simp [trashOp, hres, hin, hw, hm]

/-- Witness for C4: in an empty bin, trashing foo with a failing metadata
write leaves everything untouched, and trashing foo with a failing content
move leaves the written foo.trashinfo in place with the original undisturbed. -/
theorem c4_witness :
    trashOp ⟨[], []⟩ "foo" false true = (⟨true, ⟨[], []⟩⟩, TrashOutcome.writeFailedErr)
    ∧ trashOp ⟨[], []⟩ "foo" true false =
      (⟨true, ⟨[], ["foo.trashinfo"]⟩⟩, TrashOutcome.moveFailedErr) :=
  ⟨(c4_trash_metadata_first ⟨[], []⟩ "foo" "foo" false true rfl).2.1 (by decide) rfl,
   (c4_trash_metadata_first ⟨[], []⟩ "foo" "foo" true false rfl).2.2 (by decide) rfl rfl⟩

/- ------------------------------------------------------------------
Purge by age (TrashBin.empty)
------------------------------------------------------------------ -/

/-- One loaded bin item as TrashBin.empty sees it: its deletion timestamp, its
content size, and oracles for whether the content deletion (size computation
plus rmtree/unlink) and the info-file unlink succeed. -/
structure BinItem where
  dateTrashed : Nat
  size : Nat
  deleteOk : Bool
  infoUnlinkOk : Bool
  deriving DecidableEq

/-- Ordering used by sorted(self.items, key=lambda i: i.date_trashed). -/
def dateLe (a b : BinItem) : Prop :=
  a.dateTrashed ≤ b.dateTrashed

instance : DecidableRel dateLe := fun a b => Nat.decLe a.dateTrashed b.dateTrashed

instance : IsTotal BinItem dateLe := ⟨fun a b => Nat.le_total a.dateTrashed b.dateTrashed⟩

instance : IsTrans BinItem dateLe := ⟨fun _ _ _ h1 h2 => Nat.le_trans h1 h2⟩

/-- Result of TrashBin.empty: either the loop ran to completion, returning the
accumulated size total with the per-item remaining state (content present,
info file present), or it was aborted by an uncaught exception, in which case
no total is ever returned and only the effects made before the abort persist. -/
inductive PurgeResult where
  | completed (total : Nat) (states : List (BinItem × Bool × Bool))
  | aborted (states : List (BinItem × Bool × Bool))
  deriving DecidableEq

/-- The loop of TrashBin.empty over an already sorted item list, with the size
flag set.  An item trashed strictly before the cutoff is deleted: a failure of
the size computation or of the content removal is caught by the handler that
formats the exception itself (log.warning with e) and the loop continues; on
success the item's size is added and the info file is unlinked in its own
try block — but that block's handler formats e.message, an attribute Python 3
exceptions do not have, so a failed info unlink raises AttributeError out of
the handler, aborting the loop: the remaining items are untouched and the
total is lost. -/
def emptyFold (cutoff : Nat) : List BinItem → PurgeResult
  | [] => PurgeResult.completed 0 []
  | i :: rest =>
    if i.dateTrashed < cutoff then
      if i.deleteOk then
        if i.infoUnlinkOk then
          match emptyFold cutoff rest with
          | PurgeResult.completed tot sts =>
            PurgeResult.completed (i.size + tot) ((i, false, false) :: sts)
          | PurgeResult.aborted sts => PurgeResult.aborted ((i, false, false) :: sts)
        else
          PurgeResult.aborted ((i, false, true) :: rest.map (fun j => (j, true, true)))
      else
        match emptyFold cutoff rest with
        | PurgeResult.completed tot sts => PurgeResult.completed tot ((i, true, true) :: sts)
        | PurgeResult.aborted sts => PurgeResult.aborted ((i, true, true) :: sts)
    else
      match emptyFold cutoff rest with
      | PurgeResult.completed tot sts => PurgeResult.completed tot ((i, true, true) :: sts)
      | PurgeResult.aborted sts => PurgeResult.aborted ((i, true, true) :: sts)

/-- Translation of TrashBin.empty with the size flag set: sort the loaded
items by deletion timestamp ascending, then run the loop. -/
def emptyBin (items : List BinItem) (cutoff : Nat) : PurgeResult :=
  emptyFold cutoff (List.insertionSort dateLe items)

/-- C9, evaluated at the failing input: two items trashed at times 0 and 10,
both strictly before the cutoff 20.  First conjunct: when the older item's
content deletion succeeds but its info-file unlink fails, the e.message
AttributeError aborts the purge, so the second item — due for deletion — is
left untouched and no reclaimed-size total is reported, contrary to the claim
that one item's failure does not abort the rest.  Second conjunct, for
contrast: a failure of the content deletion itself is caught as the claim
describes, the loop continues, and the total counts only the item actually
deleted. -/
theorem c9_abort_eval :
    emptyBin [⟨0, 7, true, false⟩, ⟨10, 3, true, true⟩] 20 =
      PurgeResult.aborted
        [(⟨0, 7, true, false⟩, false, true), (⟨10, 3, true, true⟩, true, true)]
    ∧ emptyBin [⟨0, 7, false, true⟩, ⟨10, 3, true, true⟩] 20 =
      PurgeResult.completed 3
        [(⟨0, 7, false, true⟩, true, true), (⟨10, 3, true, true⟩, false, false)] :=
  ⟨rfl, rfl⟩

/- ------------------------------------------------------------------
Restore (TrashedPath.restore, TrashedPath._read_matching_info_file)
------------------------------------------------------------------ -/

/-- Final path segment, as Path(p).name computes it: the component after the
last slash, ignoring trailing slashes. -/
def baseName (p : String) : String :=
  String.mk (((p.data.reverse.dropWhile (fun c => c == '/')).takeWhile
    (fun c => !(c == '/'))).reverse)

/-- Whether string s starts with string pre. -/
def strStarts (s pre : String) : Bool :=
  pre.data.isPrefixOf s.data

/-- Bin state as the restore path sees it: the entry names under files/ and,
for each readable info/stem.trashinfo file, its stem paired with the recorded
Path field. -/
structure RestoreBin where
  files : List String
  infos : List (String × String)
  deriving DecidableEq

/-- The two globs of TrashedPath._read_matching_info_file: info files whose
stem is exactly the final path segment, followed by those whose stem is that
segment plus an underscore and anything (the pattern filename_*.trashinfo). -/
def globStemMatches (infos : List (String × String)) (filename : String) :
    List (String × String) :=
  infos.filter (fun p => p.1 == filename)
    ++ infos.filter (fun p => strStarts p.1 (filename ++ "_"))

inductive LocateOutcome where
  | noFiles
  | one (stem orig : String)
  | multiOneMatch
  | multiNoMatch
  | multiAmbiguous
  deriving DecidableEq

/-- Translation of TrashedPath._read_matching_info_file.  Zero glob matches
returns False (noFiles); exactly one match is adopted and read (one stem orig)
and True is returned; with several matches each is read and its recorded path
compared against the requested path, and then: exactly one match falls off the
end of the function, returning None (multiOneMatch), zero matches raises
(multiNoMatch), several raise (multiAmbiguous). -/
def readMatchingInfoFile (infos : List (String × String)) (requested : String) :
    LocateOutcome :=
  let infoFiles := globStemMatches infos (baseName requested)
  match infoFiles with
  | [] => LocateOutcome.noFiles
  | [f] => LocateOutcome.one f.1 f.2
  | fs =>
    match fs.filter (fun p => p.2 == requested) with
    | [_] => LocateOutcome.multiOneMatch
    | [] => LocateOutcome.multiNoMatch
    | _ => LocateOutcome.multiAmbiguous

inductive RestoreOutcome where
  | notFound
  | lookupFellThrough
  | raisedNoMatch
  | raisedAmbiguous
  | pathMismatch
  | destExists
  | moveFailed
  | restored
  deriving DecidableEq

/-- Destination of a restore: dest/basename when a destination directory is
given, else the recorded original path. -/
def restoreTarget (orig : String) (dest : Option String) : String :=
  match dest with
  | some d => d ++ "/" ++ baseName orig
  | none => orig

/-- Translation of TrashedPath.restore for a path-identified item.  world is
the set of paths existing outside the bin.  A falsy result from
_read_matching_info_file aborts (in particular None from the multiple-match
case: lookupFellThrough); then the recorded path must equal the requested one;
then the destination must not exist; then the content is moved (moveOk oracle;
on failure the info file is untouched) and only afterwards is the info file
unlinked (infoUnlinkOk oracle, a failure being caught and logged). -/
def restoreOp (bin : RestoreBin) (world : List String) (requested : String)
    (dest : Option String) (moveOk infoUnlinkOk : Bool) :
    (RestoreBin × List String) × RestoreOutcome :=
  match readMatchingInfoFile bin.infos requested with
  | LocateOutcome.noFiles => ((bin, world), RestoreOutcome.notFound)
  | LocateOutcome.multiOneMatch => ((bin, world), RestoreOutcome.lookupFellThrough)
  | LocateOutcome.multiNoMatch => ((bin, world), RestoreOutcome.raisedNoMatch)
  | LocateOutcome.multiAmbiguous => ((bin, world), RestoreOutcome.raisedAmbiguous)
  | LocateOutcome.one stem orig =>
    if orig ≠ requested then ((bin, world), RestoreOutcome.pathMismatch)
    else if restoreTarget orig dest ∈ world then ((bin, world), RestoreOutcome.destExists)
    else if moveOk = false then ((bin, world), RestoreOutcome.moveFailed)
    else
      ((⟨bin.files.erase stem,
          if infoUnlinkOk then bin.infos.filter (fun p => !(p.1 == stem)) else bin.infos⟩,
        restoreTarget orig dest :: world), RestoreOutcome.restored)

/-- C8: restore mutates the filesystem only after the content move succeeds:
an existing destination aborts with no mutation, a failed content move leaves
the bin (in particular the metadata file) intact, and any change to the bin's
info files or content entries happens only on the fully restored outcome. -/
theorem c8_restore_mutation_order (bin : RestoreBin) (world : List String)
    (requested : String) (dest : Option String) (moveOk infoUnlinkOk : Bool) :
    ((restoreOp bin world requested dest moveOk infoUnlinkOk).2 = RestoreOutcome.destExists →
      (restoreOp bin world requested dest moveOk infoUnlinkOk).1 = (bin, world))
    ∧ ((restoreOp bin world requested dest moveOk infoUnlinkOk).2 = RestoreOutcome.moveFailed →
      (restoreOp bin world requested dest moveOk infoUnlinkOk).1 = (bin, world))
    ∧ ((restoreOp bin world requested dest moveOk infoUnlinkOk).1.1.infos ≠ bin.infos →
      (restoreOp bin world requested dest moveOk infoUnlinkOk).2 = RestoreOutcome.restored)
    ∧ ((restoreOp bin world requested dest moveOk infoUnlinkOk).1.1.files ≠ bin.files →
      (restoreOp bin world requested dest moveOk infoUnlinkOk).2 = RestoreOutcome.restored) := by
  cases hloc : readMatchingInfoFile bin.infos requested with
  | noFiles => simp [restoreOp, hloc]
  | multiOneMatch => simp [restoreOp, hloc]
  | multiNoMatch => simp [restoreOp, hloc]
  | multiAmbiguous => simp [restoreOp, hloc]
  | one stem orig =>
    by_cases hor : orig = requested
    · subst hor
      by_cases ht : restoreTarget orig dest ∈ world
      · simp [restoreOp, hloc, ht]
      · by_cases hm : moveOk = false
        · simp [restoreOp, hloc, ht, hm]
        · simp [restoreOp, hloc, ht, hm]
    · simp [restoreOp, hloc, hor]

/-- Witness for C8: restoring /a/foo when /a/foo already exists leaves the bin
and the outside world unchanged. -/
theorem c8_witness :
    (restoreOp ⟨["foo"], [("foo", "/a/foo")]⟩ ["/a/foo"] "/a/foo" none true true).1 =
      (⟨["foo"], [("foo", "/a/foo")]⟩, ["/a/foo"]) :=
  (c8_restore_mutation_order ⟨["foo"], [("foo", "/a/foo")]⟩ ["/a/foo"] "/a/foo" none true
    true).1 (by decide)

/-- C10: when exactly one metadata file's stem matches the requested name but
its recorded original path differs from the requested path, restore fails with
no content moved and no metadata file deleted. -/
theorem c10_single_match_path_check (bin : RestoreBin) (world : List String)
    (requested : String) (dest : Option String) (moveOk infoUnlinkOk : Bool)
    (stem orig : String)
    (hglob : globStemMatches bin.infos (baseName requested) = [(stem, orig)])
    (hne : orig ≠ requested) :
    restoreOp bin world requested dest moveOk infoUnlinkOk =
      ((bin, world), RestoreOutcome.pathMismatch) := by
  have hloc : readMatchingInfoFile bin.infos requested = LocateOutcome.one stem orig := by
    simp [readMatchingInfoFile, hglob]
  simp [restoreOp, hloc, hne]

/-- Witness for C10: the single stem match foo.trashinfo records /b/foo, the
user asks to restore /a/foo, and the restore aborts with everything in place. -/
theorem c10_witness :
    globStemMatches [("foo", "/b/foo")] (baseName "/a/foo") = [("foo", "/b/foo")]
    ∧ restoreOp ⟨["foo"], [("foo", "/b/foo")]⟩ [] "/a/foo" none true true =
      ((⟨["foo"], [("foo", "/b/foo")]⟩, []), RestoreOutcome.pathMismatch) :=
  ⟨by decide,
   c10_single_match_path_check ⟨["foo"], [("foo", "/b/foo")]⟩ [] "/a/foo" none true true
     "foo" "/b/foo" (by decide) (by decide)⟩

/-- C1, evaluated at the failing input: with two stem matches foo.trashinfo
(recording /b/foo) and foo_1.trashinfo (recording /a/foo), restoring /a/foo
finds exactly one recorded path equal to the requested one, yet
_read_matching_info_file falls off the end returning None, so restore returns
False and nothing is restored — where the claim says the restore proceeds with
the unique match. -/
theorem c1_multi_match_eval :
    restoreOp ⟨["foo", "foo_1"], [("foo", "/b/foo"), ("foo_1", "/a/foo")]⟩ [] "/a/foo" none
        true true =
      ((⟨["foo", "foo_1"], [("foo", "/b/foo"), ("foo_1", "/a/foo")]⟩, []),
        RestoreOutcome.lookupFellThrough) := by
  decide

/- ------------------------------------------------------------------
Metadata codec (CaseConfigParser.optionxform, TrashedPath._write_trashinfo_file,
TrashedPath._read_trashinfo_file).  A .trashinfo file is modelled as its list
of text lines, each line a list of characters.
------------------------------------------------------------------ -/

/-- Decimal digit character; only ever applied to values below 10. -/
def digitChar (n : Nat) : Char :=
  Char.ofNat (48 + n)

lemma digitChar_lt_not_ws : ∀ k, k < 10 → (digitChar k).isWhitespace = false := by
  decide

@[simp] lemma digitChar_mod_not_ws (x : Nat) : (digitChar (x % 10)).isWhitespace = false :=
  digitChar_lt_not_ws (x % 10) (Nat.mod_lt x (by decide))

